import Mathlib

/-!
# Verification of the amethyst-imgui glue layer (`src/lib.rs`)

Shallow embedding of the crate's core: the shared GUI state, the input
filter system (`ImguiInputSystem::run`), the event-channel cursor
protocol, the frame-handle registry (`with` / `current_ui`), and the
`RenderImgui` plugin construction.

Events and channels from the host engine (amethyst / shrev / winit) are
external dependencies; they are modelled from the spec where their payload
does not matter to this crate, and field-for-field where the crate's
`match` distinguishes them.
-/

namespace AmethystImgui

/-- A mouse button (`amethyst::input::MouseButton` / winit); the input
filter only passes these through, so the exact constructor set is
representative: left, right, middle and numbered other buttons. -/
inductive MouseButton
  | left
  | right
  | middle
  | other (n : Nat)
  deriving DecidableEq, Repr

/-- A scroll direction (`amethyst::input::ScrollDirection`): payload of a
mouse-wheel event, carried through untouched. -/
inductive ScrollDirection
  | scrollUp
  | scrollDown
  | scrollLeft
  | scrollRight
  deriving DecidableEq, Repr

/-- `amethyst::input::InputEvent<T>` with `T : BindingTypes` providing the
axis/action payloads (modelled by the type parameter `T`). Constructors
mirror the variants the crate's `match` in `ImguiInputSystem::run`
distinguishes (the four mouse kinds and two key kinds) plus the variants
that fall to the `_` arm. Float deltas are carried as `Int`: they are
inert payload, never computed with. -/
inductive InputEvent (T : Type)
  | keyPressed (key_code scancode : Nat)
  | keyReleased (key_code scancode : Nat)
  | keyTyped (c : Char)
  | mouseButtonPressed (b : MouseButton)
  | mouseButtonReleased (b : MouseButton)
  | buttonPressed (b : Nat)
  | buttonReleased (b : Nat)
  | mouseWheelMoved (d : ScrollDirection)
  | mouseMoved (delta_x delta_y : Int)
  | cursorMoved (delta_x delta_y : Int)
  | axisMoved (axis : T) (value : Int)
  | actionPressed (a : T)
  | actionReleased (a : T)
  | actionWheelMoved (a : T)
  deriving DecidableEq, Repr

/-- `FilteredInputEvent<T>(pub InputEvent<T>)` — the newtype wrapper the
filter writes to its outgoing channel (src/lib.rs:37). -/
structure FilteredInputEvent (T : Type) where
  event : InputEvent T
  deriving DecidableEq, Repr

/-- A raw windowing event (`winit::Event`). Modelled from the spec: the
crate drains these and applies no transformation, so the payload is
opaque. -/
structure WinitEvent where
  id : Nat
  deriving DecidableEq, Repr

/-- Modelled from the spec: `shrev::EventChannel`, the append-only
broadcast log this crate consumes through cursors and produces filtered
events into. `events` is the full history of appended events. -/
structure EventChannel (α : Type) where
  events : List α
  deriving DecidableEq, Repr

/-- Modelled from the spec: `shrev::ReaderId`, a stateful read position
into an `EventChannel`'s append-only log. -/
structure ReaderId where
  pos : Nat
  deriving DecidableEq, Repr

/-- Modelled from the spec: one `single_write` appends one event to the
log. -/
def EventChannel.single_write {α : Type} (c : EventChannel α) (e : α) : EventChannel α :=
  ⟨c.events ++ [e]⟩

/-- Modelled from the spec: draining the channel through a cursor returns
exactly the events appended since the cursor's position and advances the
cursor to the current tail. -/
def EventChannel.read {α : Type} (c : EventChannel α) (r : ReaderId) :
    List α × ReaderId :=
  (c.events.drop r.pos, ⟨c.events.length⟩)

/-- Modelled from the spec: registering a reader places its cursor at the
current tail of the log, so no historical backlog is replayed. -/
def EventChannel.register_reader {α : Type} (c : EventChannel α) : ReaderId :=
  ⟨c.events.length⟩

/-- Modelled from the spec: appending a batch of events to the log
(repeated `single_write`). -/
def EventChannel.append {α : Type} (c : EventChannel α) (es : List α) : EventChannel α :=
  es.foldl EventChannel.single_write c

/-- The per-frame IO state of the external `imgui::Context`, reduced to
the fields this crate reads (`want_capture_mouse`,
`want_capture_keyboard`, src/lib.rs:64,69) and writes at construction
(`config_flags`, src/lib.rs:109). -/
structure ImguiIoState where
  want_capture_mouse : Bool
  want_capture_keyboard : Bool
  config_flags : Nat
  deriving DecidableEq, Repr

/-- The external `imgui::Context`, reduced to its IO state (the only part
this crate's core reads). -/
structure ImguiContext where
  io : ImguiIoState
  deriving DecidableEq, Repr

/-- A renderer texture handle (`amethyst::assets::Handle<Texture>`),
opaque to this crate. -/
abbrev TextureHandle := Nat

/-- `ImguiState` (src/lib.rs:31-34): the GUI library context plus the
texture handles it owns. -/
structure ImguiState where
  context : ImguiContext
  textures : List TextureHandle
  deriving DecidableEq, Repr

/-- The failure of acquiring a `std::sync::Mutex`: the lock was poisoned
by a panic while held. -/
inductive LockError
  | poisoned
  deriving DecidableEq, Repr

/-- `Arc<Mutex<ImguiState>>` as the filter system sees it: the protected
state plus whether the lock is poisoned. -/
structure ImguiStateMutex where
  state : ImguiState
  poisoned : Bool
  deriving DecidableEq, Repr

/-- `Mutex::lock`: yields the guarded state, or an error when the lock is
poisoned. `ImguiInputSystem::run` calls `.lock().unwrap()`
(src/lib.rs:52), so the error case panics there — modelled as `Except`
error propagation. -/
def ImguiStateMutex.lock (m : ImguiStateMutex) : Except LockError ImguiState :=
  if m.poisoned then .error .poisoned else .ok m.state

/-- `ImguiInputSystem<T>` (src/lib.rs:39-42): the two event cursors the
system owns. -/
structure ImguiInputSystem where
  input_reader : ReaderId
  winit_reader : ReaderId
  deriving DecidableEq, Repr

/-- The body of the per-event `match` in `ImguiInputSystem::run`
(src/lib.rs:59-74): mouse kinds are written to the filtered channel iff
`want_capture_mouse` is false, key kinds iff `want_capture_keyboard` is
false, and every other kind unconditionally. -/
def processInputEvent {T : Type} (io : ImguiIoState)
    (filtered_events : EventChannel (FilteredInputEvent T)) (input : InputEvent T) :
    EventChannel (FilteredInputEvent T) :=
  match input with
  | .mouseMoved _ _ | .mouseButtonPressed _ | .mouseButtonReleased _ | .mouseWheelMoved _ =>
    if !io.want_capture_mouse then
      filtered_events.single_write ⟨input⟩
    else
      filtered_events
  | .keyPressed _ _ | .keyReleased _ _ =>
    if !io.want_capture_keyboard then
      filtered_events.single_write ⟨input⟩
    else
      filtered_events
  | _ => filtered_events.single_write ⟨input⟩

/-- The result of one `ImguiInputSystem::run`: the system with its two
advanced cursors, the guarded state as left in the mutex, and the
filtered-event channel after the writes. -/
structure RunResult (T : Type) where
  system : ImguiInputSystem
  state : ImguiState
  filtered_events : EventChannel (FilteredInputEvent T)
  deriving DecidableEq, Repr

/-- `ImguiInputSystem::run` (src/lib.rs:51-76): lock the shared state
(`unwrap` panics on a poisoned lock, modelled as the `Except` error),
drain the winit channel (the loop body is a commented-out placeholder),
then drain the input channel, dispatching each event through the
classification `match`. -/
def ImguiInputSystem.run {T : Type} (sys : ImguiInputSystem)
    (state_mutex : ImguiStateMutex)
    (input_events : EventChannel (InputEvent T))
    (winit_events : EventChannel WinitEvent)
    (filtered_events : EventChannel (FilteredInputEvent T)) :
    Except LockError (RunResult T) := do
  let state ← state_mutex.lock
  let (_, winit_reader') := winit_events.read sys.winit_reader
  let (drained, input_reader') := input_events.read sys.input_reader
  let filtered' := drained.foldl (processInputEvent state.context.io) filtered_events
  pure { system := ⟨input_reader', winit_reader'⟩, state := state, filtered_events := filtered' }

/-- An input event is of a pointer kind: one of the four variants the
first `match` arm (src/lib.rs:60-63) groups. -/
def isPointerKind {T : Type} : InputEvent T → Bool
  | .mouseMoved _ _ | .mouseButtonPressed _ | .mouseButtonReleased _ | .mouseWheelMoved _ => true
  | _ => false

/-- An input event is of a keyboard kind: one of the two variants the
second `match` arm (src/lib.rs:68) groups. -/
def isKeyboardKind {T : Type} : InputEvent T → Bool
  | .keyPressed _ _ | .keyReleased _ _ => true
  | _ => false

/-- The classification the `match` implements, as a single predicate:
whether the event is re-emitted given the capture flags. -/
def shouldEmit {T : Type} (io : ImguiIoState) (e : InputEvent T) : Bool :=
  if isPointerKind e then !io.want_capture_mouse
  else if isKeyboardKind e then !io.want_capture_keyboard
  else true

/-- The batch of events one successful run appends to the filtered
channel: everything past the channel's previous tail. On a poisoned lock
(run panics) nothing is appended. -/
def runOutput {T : Type} (sys : ImguiInputSystem) (st : ImguiState)
    (input_events : EventChannel (InputEvent T))
    (winit_events : EventChannel WinitEvent)
    (filtered_events : EventChannel (FilteredInputEvent T)) :
    List (FilteredInputEvent T) :=
  match sys.run ⟨st, false⟩ input_events winit_events filtered_events with
  | .ok res => res.filtered_events.events.drop filtered_events.events.length
  | .error _ => []

/-- The shared state as one run leaves it in the mutex (or the surfaced
lock failure). -/
def stateAfterRun {T : Type} (sys : ImguiInputSystem) (state_mutex : ImguiStateMutex)
    (input_events : EventChannel (InputEvent T))
    (winit_events : EventChannel WinitEvent)
    (filtered_events : EventChannel (FilteredInputEvent T)) :
    Except LockError ImguiState :=
  (sys.run state_mutex input_events winit_events filtered_events).map RunResult.state

/-! ## Frame handle registry (src/lib.rs:127-137) -/

/-- The external `imgui::Ui` frame object, opaque to this crate's
registry: it is only stored and handed to callbacks. -/
structure Ui where
  frame : Nat
  deriving DecidableEq, Repr

/-- The `CURRENT_UI` global (src/lib.rs:127): a nullable reference to the
current UI frame. -/
abbrev CurrentUi := Option Ui

/-- Modelled from the spec: publishing a frame installs it as the current
handle (done by the render pass, outside src/lib.rs). -/
def publish (_ : CurrentUi) (u : Ui) : CurrentUi := some u

/-- Modelled from the spec: withdrawing clears the current handle (done by
the render pass when the frame ends). -/
def withdraw (_ : CurrentUi) : CurrentUi := none

/-- `current_ui` (src/lib.rs:137): reads the `CURRENT_UI` global. -/
def current_ui (g : CurrentUi) : Option Ui := g

/-- `with` (src/lib.rs:129-135): if a frame is published, invoke the
callback on it, else do nothing. The result lists the invocations the
callback receives — one `(argument, result)` entry per call — so that
call count and the argument passed are observable; the function is total,
so the call can never fail. -/
def withUi {α : Type} (g : CurrentUi) (f : Ui → α) : List (Ui × α) :=
  match current_ui g with
  | some ui => [(ui, f ui)]
  | none => []

/-- The public functions of src/lib.rs that touch the `CURRENT_UI`
global. -/
inductive FrameAccessor
  | withAccessor
  | currentUiAccessor
  deriving DecidableEq, Repr

/-- The API surface of the two frame accessors, read off the source:
`pub fn with(f: impl FnOnce(&imgui::Ui))` (src/lib.rs:129) is public and
safe and only ever lends the frame to a callback for the duration of the
call; `pub unsafe fn current_ui<'a>() -> Option<&'a imgui::Ui<'a>>`
(src/lib.rs:137) is public, marked `unsafe`, and returns a reference
whose lifetime the caller chooses, so the caller can retain it past
`withdraw`. -/
structure AccessorSignature where
  isPublic : Bool
  isUnsafeFn : Bool
  accessesCurrentFrame : Bool
  returnsRetainableHandle : Bool
  deriving DecidableEq, Repr

/-- The signature facts of each frame accessor, read off src/lib.rs. -/
def frameApi : FrameAccessor → AccessorSignature
  | .withAccessor =>
    { isPublic := true, isUnsafeFn := false,
      accessesCurrentFrame := true, returnsRetainableHandle := false }
  | .currentUiAccessor =>
    { isPublic := true, isUnsafeFn := true,
      accessesCurrentFrame := true, returnsRetainableHandle := true }

/-! ## RenderImgui plugin (src/lib.rs:139-197) -/

/-- The `imgui::ConfigFlags` bitmask, as a natural-number bitmask. -/
abbrev ConfigFlags := Nat

/-- `imgui::ConfigFlags::empty()`. -/
def ConfigFlags.emptyFlags : ConfigFlags := 0

/-- `imgui::ConfigFlags::DOCKING_ENABLE` (bit 6 in the imgui bitmask). -/
def ConfigFlags.dockingEnable : ConfigFlags := 64

/-- The render target selector (`amethyst::renderer::bundle::Target`):
the main target by default, or a named custom target. -/
inductive Target
  | main
  | custom (name : String)
  deriving DecidableEq, Repr

/-- `Target::default()`: the main render target. -/
def Target.defaultTarget : Target := Target.main

/-- `RenderImgui<T>` (src/lib.rs:142-146): the render target and the GUI
configuration-flags bitmask, both fixed at construction. -/
structure RenderImgui where
  target : Target
  config_flags : ConfigFlags
  deriving DecidableEq, Repr

/-- `RenderImgui::default()` (src/lib.rs:147-165): the default target, and
config flags `DOCKING_ENABLE` when the crate's "docking" feature is
enabled (`docking = true` models `#[cfg(feature = "docking")]`), the
empty bitmask otherwise. -/
def RenderImgui.defaultPlugin (docking : Bool) : RenderImgui :=
  if docking then
    { target := Target.defaultTarget, config_flags := ConfigFlags.dockingEnable }
  else
    { target := Target.defaultTarget, config_flags := ConfigFlags.emptyFlags }

/-- `RenderImgui::with_imgui_config` (src/lib.rs:168-171): replaces the
config-flags bitmask. -/
def RenderImgui.with_imgui_config (p : RenderImgui) (config_flags : ConfigFlags) : RenderImgui :=
  { p with config_flags := config_flags }

/-- `RenderImgui::with_target` (src/lib.rs:174-177): selects the render
target. -/
def RenderImgui.with_target (p : RenderImgui) (target : Target) : RenderImgui :=
  { p with target := target }

/-- The dispatcher registration performed by `RenderPlugin::on_build`
(src/lib.rs:181-189): the system name, its upstream dependencies, and the
config flags handed to the system desc. -/
structure StageRegistration where
  name : String
  deps : List String
  config_flags : ConfigFlags
  deriving DecidableEq, Repr

/-- `RenderPlugin::on_build` for `RenderImgui` (src/lib.rs:181-189):
registers the input system with its dependencies; the plugin's own fields
are not modified. -/
def RenderImgui.on_build (p : RenderImgui) : RenderImgui × StageRegistration :=
  (p, { name := "imgui_input_system",
        deps := ["input_system", "window"],
        config_flags := p.config_flags })

/-- The render-graph ordering slots (`amethyst RenderOrder`), reduced to
the one this crate uses plus a representative other. -/
inductive RenderOrder
  | opaque_
  | transparent
  | overlay
  deriving DecidableEq, Repr

/-- `RenderPlugin::on_plan` for `RenderImgui` (src/lib.rs:191-197):
extends the plugin's target with the imgui draw pass at the `Overlay`
slot; the plugin's own fields are not modified. -/
def RenderImgui.on_plan (p : RenderImgui) : RenderImgui × (Target × RenderOrder) :=
  (p, (p.target, RenderOrder.overlay))

/-! ## Concrete example values (used by witnesses) -/

/-- An example system whose cursors sit at the head of both logs. -/
def exSystem : ImguiInputSystem := ⟨⟨0⟩, ⟨0⟩⟩

/-- An example shared state with the given capture flags. -/
def exState (m k : Bool) : ImguiState :=
  { context := { io := { want_capture_mouse := m, want_capture_keyboard := k, config_flags := 0 } },
    textures := [] }

/-- An example input log: the spec's scenario `[pointer-move, key-press(A),
pointer-button-press(Left)]` followed by an action event. -/
def exInputs : EventChannel (InputEvent Nat) :=
  ⟨[.mouseMoved 1 2, .keyPressed 30 30, .mouseButtonPressed .left, .actionPressed 7]⟩

/-- An example windowing log. -/
def exWinits : EventChannel WinitEvent := ⟨[⟨0⟩, ⟨1⟩]⟩

/-- An example (empty) outgoing filtered log. -/
def exFiltered : EventChannel (FilteredInputEvent Nat) := ⟨[]⟩

/-! ## Helper lemmas about the filter loop -/

theorem processInputEvent_eq {T : Type} (io : ImguiIoState)
    (ch : EventChannel (FilteredInputEvent T)) (e : InputEvent T) :
    processInputEvent io ch e =
      if shouldEmit io e then ch.single_write ⟨e⟩ else ch := by
  cases e <;>
    simp [processInputEvent, shouldEmit, isPointerKind, isKeyboardKind]

theorem foldl_processInputEvent {T : Type} (io : ImguiIoState) :
    ∀ (events : List (InputEvent T)) (ch : EventChannel (FilteredInputEvent T)),
      (events.foldl (processInputEvent io) ch).events
        = ch.events ++ (events.filter (shouldEmit io)).map FilteredInputEvent.mk
  | [], ch => by simp
  | e :: es, ch => by
    rw [List.foldl_cons, foldl_processInputEvent io es, processInputEvent_eq]
    cases h : shouldEmit io e <;>
      simp [h, EventChannel.single_write, List.filter_cons]

theorem runOutput_eq {T : Type} (sys : ImguiInputSystem) (st : ImguiState)
    (input_events : EventChannel (InputEvent T))
    (winit_events : EventChannel WinitEvent)
    (filtered_events : EventChannel (FilteredInputEvent T)) :
    runOutput sys st input_events winit_events filtered_events
      = ((input_events.events.drop sys.input_reader.pos).filter
            (shouldEmit st.context.io)).map FilteredInputEvent.mk := by
  simp only [runOutput, ImguiInputSystem.run, ImguiStateMutex.lock, EventChannel.read,
    if_neg Bool.false_ne_true, Except.bind]
  simp [foldl_processInputEvent, List.drop_left]

theorem append_events {α : Type} :
    ∀ (es : List α) (c : EventChannel α), (c.append es).events = c.events ++ es
  | [], c => by simp [EventChannel.append]
  | e :: es, c => by
    have h := append_events es (c.single_write e)
    rw [EventChannel.append, List.foldl_cons, ← EventChannel.append, h]
    simp [EventChannel.single_write]

/-! ## Claim theorems -/

/-- C1: For every pointer-kind input event (mouse moved, mouse button
pressed, mouse button released, mouse wheel moved) drained by
`ImguiInputSystem::run`: if `want_capture_mouse` is true at filtering time
the event is absent from the filtered output; if it is false the pointer
events appear exactly once each, unmodified (wrapped as
`FilteredInputEvent`), in the input's relative order; moreover the whole
output is a subsequence of the drained input, so the relative order of the
input stream is preserved. -/
theorem run_filters_pointer_events {T : Type} (sys : ImguiInputSystem) (st : ImguiState)
    (input_events : EventChannel (InputEvent T)) (winit_events : EventChannel WinitEvent)
    (filtered_events : EventChannel (FilteredInputEvent T)) :
    (st.context.io.want_capture_mouse = true →
      (runOutput sys st input_events winit_events filtered_events).filter
          (fun f => isPointerKind f.event) = [])
    ∧ (st.context.io.want_capture_mouse = false →
      (runOutput sys st input_events winit_events filtered_events).filter
          (fun f => isPointerKind f.event)
        = ((input_events.events.drop sys.input_reader.pos).filter isPointerKind).map
            FilteredInputEvent.mk)
    ∧ ((runOutput sys st input_events winit_events filtered_events).map
          FilteredInputEvent.event).Sublist
        (input_events.events.drop sys.input_reader.pos) := by
  rw [runOutput_eq]
  refine ⟨?_, ?_, ?_⟩
  · intro h
    rw [List.filter_eq_nil_iff]
    intro f hf
    obtain ⟨e, he, rfl⟩ := List.mem_map.mp hf
    have hse := List.of_mem_filter he
    cases e <;> simp_all [shouldEmit, isPointerKind, isKeyboardKind]
  · intro h
    rw [List.filter_map]
    congr 1
    rw [List.filter_filter]
    apply List.filter_congr
    intro e he
    cases e <;> simp [shouldEmit, isPointerKind, isKeyboardKind, Function.comp, h]
  · rw [List.map_map]
    have hcomp : (FilteredInputEvent.event ∘ FilteredInputEvent.mk :
        InputEvent T → InputEvent T) = id := rfl
    rw [hcomp, List.map_id]
    exact List.filter_sublist _

/-- C1 witness: both flag cases at concrete inputs. -/
theorem run_filters_pointer_events_witness :
    (exState true false).context.io.want_capture_mouse = true
  ∧ (runOutput exSystem (exState true false) exInputs exWinits exFiltered).filter
        (fun f => isPointerKind f.event) = []
  ∧ (exState false false).context.io.want_capture_mouse = false
  ∧ (runOutput exSystem (exState false false) exInputs exWinits exFiltered).filter
        (fun f => isPointerKind f.event)
      = ((exInputs.events.drop exSystem.input_reader.pos).filter isPointerKind).map
          FilteredInputEvent.mk :=
  ⟨rfl,
   (run_filters_pointer_events exSystem (exState true false) exInputs exWinits exFiltered).1 rfl,
   rfl,
   (run_filters_pointer_events exSystem (exState false false) exInputs exWinits exFiltered).2.1 rfl⟩

/-- C2: For every keyboard-kind input event (key pressed, key released)
drained by `ImguiInputSystem::run`: if `want_capture_keyboard` is true at
filtering time the event is absent from the filtered output; if it is
false the keyboard events appear exactly once each, unmodified, in the
input's relative order; moreover the whole output is a subsequence of the
drained input, so the relative order of the input stream is preserved. -/
theorem run_filters_keyboard_events {T : Type} (sys : ImguiInputSystem) (st : ImguiState)
    (input_events : EventChannel (InputEvent T)) (winit_events : EventChannel WinitEvent)
    (filtered_events : EventChannel (FilteredInputEvent T)) :
    (st.context.io.want_capture_keyboard = true →
      (runOutput sys st input_events winit_events filtered_events).filter
          (fun f => isKeyboardKind f.event) = [])
    ∧ (st.context.io.want_capture_keyboard = false →
      (runOutput sys st input_events winit_events filtered_events).filter
          (fun f => isKeyboardKind f.event)
        = ((input_events.events.drop sys.input_reader.pos).filter isKeyboardKind).map
            FilteredInputEvent.mk)
    ∧ ((runOutput sys st input_events winit_events filtered_events).map
          FilteredInputEvent.event).Sublist
        (input_events.events.drop sys.input_reader.pos) := by
  rw [runOutput_eq]
  refine ⟨?_, ?_, ?_⟩
  · intro h
    rw [List.filter_eq_nil_iff]
    intro f hf
    obtain ⟨e, he, rfl⟩ := List.mem_map.mp hf
    have hse := List.of_mem_filter he
    cases e <;> simp_all [shouldEmit, isPointerKind, isKeyboardKind]
  · intro h
    rw [List.filter_map]
    congr 1
    rw [List.filter_filter]
    apply List.filter_congr
    intro e he
    cases e <;> simp [shouldEmit, isPointerKind, isKeyboardKind, Function.comp, h]
  · rw [List.map_map]
    have hcomp : (FilteredInputEvent.event ∘ FilteredInputEvent.mk :
        InputEvent T → InputEvent T) = id := rfl
    rw [hcomp, List.map_id]
    exact List.filter_sublist _

/-- C2 witness: both flag cases at concrete inputs. -/
theorem run_filters_keyboard_events_witness :
    (exState false true).context.io.want_capture_keyboard = true
  ∧ (runOutput exSystem (exState false true) exInputs exWinits exFiltered).filter
        (fun f => isKeyboardKind f.event) = []
  ∧ (exState false false).context.io.want_capture_keyboard = false
  ∧ (runOutput exSystem (exState false false) exInputs exWinits exFiltered).filter
        (fun f => isKeyboardKind f.event)
      = ((exInputs.events.drop exSystem.input_reader.pos).filter isKeyboardKind).map
          FilteredInputEvent.mk :=
  ⟨rfl,
   (run_filters_keyboard_events exSystem (exState false true) exInputs exWinits exFiltered).1 rfl,
   rfl,
   (run_filters_keyboard_events exSystem (exState false false) exInputs exWinits exFiltered).2.1 rfl⟩

/-- C3: Every input event that is neither of a pointer kind nor of a
keyboard kind is re-emitted wrapped exactly once by
`ImguiInputSystem::run`, in the input's relative order, regardless of the
capture flags (the state `st`, and hence both flags, is universally
quantified): the other-kind events of the output are exactly the
other-kind events of the drained input, wrapped. -/
theorem run_passes_other_events {T : Type} (sys : ImguiInputSystem) (st : ImguiState)
    (input_events : EventChannel (InputEvent T)) (winit_events : EventChannel WinitEvent)
    (filtered_events : EventChannel (FilteredInputEvent T)) :
    (runOutput sys st input_events winit_events filtered_events).filter
        (fun f => !isPointerKind f.event && !isKeyboardKind f.event)
      = ((input_events.events.drop sys.input_reader.pos).filter
            (fun e => !isPointerKind e && !isKeyboardKind e)).map FilteredInputEvent.mk := by
  rw [runOutput_eq, List.filter_map]
  congr 1
  rw [List.filter_filter]
  apply List.filter_congr
  intro e he
  cases e <;> simp [shouldEmit, isPointerKind, isKeyboardKind, Function.comp]

/-- C4: `with(f)` invoked when no current UI frame is published never
invokes `f` — the invocation list is empty — and, `withUi` being a total
function, the call can never fail: it is a safe no-op. -/
theorem with_no_frame_is_noop {α : Type} (f : Ui → α) :
    withUi (none : CurrentUi) f = [] := rfl

/-- C5: `with(f)` invoked while a frame is published (between `publish`
and `withdraw`) invokes `f` exactly once — the invocation list has exactly
one entry — and the argument passed is the published frame itself. -/
theorem with_published_frame_invokes_once {α : Type} (g : CurrentUi) (u : Ui) (f : Ui → α) :
    withUi (publish g u) f = [(u, f u)] := rfl

/-- C6: draining a channel through a cursor twice in a row with no events
appended in between yields an empty result on the second drain; in
general, after appending `es`, the next drain through the advanced cursor
returns exactly `es` — never replaying an already-drained event, never
dropping a new one. -/
theorem cursor_drain_exact {α : Type} (c : EventChannel α) (r : ReaderId) (es : List α) :
    (c.read (c.read r).2).1 = []
    ∧ ((c.append es).read (c.read r).2).1 = es := by
  constructor
  · simp [EventChannel.read, List.drop_length]
  · simp only [EventChannel.read, append_events]
    exact List.drop_left c.events es

/-- C7 counterexample: it is not the case that the scoped `with` accessor
is the only publicly exposed accessor of the current frame —
`current_ui` (src/lib.rs:137) is also `pub` (although `unsafe`) and
accesses the current frame. -/
theorem frame_handle_public_api_cex :
    ¬ (∀ a : FrameAccessor,
        (frameApi a).isPublic = true → (frameApi a).accessesCurrentFrame = true →
          a = FrameAccessor.withAccessor) :=
  fun h => absurd (h FrameAccessor.currentUiAccessor rfl rfl) (by decide)

/-- C7 (amended): every public accessor of the current frame that is not
marked `unsafe` is the scoped `with`, and it does not return a retainable
handle — so no caller can retain or use the current-frame handle after
withdrawal without opting into `unsafe`; prevention by construction holds
for the safe public API only. -/
theorem frame_handle_safe_api_scoped (a : FrameAccessor)
    (hpub : (frameApi a).isPublic = true)
    (hsafe : (frameApi a).isUnsafeFn = false)
    (hacc : (frameApi a).accessesCurrentFrame = true) :
    a = FrameAccessor.withAccessor ∧ (frameApi a).returnsRetainableHandle = false := by
  cases a
  · exact ⟨rfl, rfl⟩
  · exact absurd hsafe (by decide)

/-- C7 witness: the amended statement applied to the `with` accessor. -/
theorem frame_handle_safe_api_scoped_witness :
    (frameApi FrameAccessor.withAccessor).isPublic = true
    ∧ (frameApi FrameAccessor.withAccessor).isUnsafeFn = false
    ∧ (frameApi FrameAccessor.withAccessor).accessesCurrentFrame = true
    ∧ (FrameAccessor.withAccessor = FrameAccessor.withAccessor
        ∧ (frameApi FrameAccessor.withAccessor).returnsRetainableHandle = false) :=
  ⟨rfl, rfl, rfl, frame_handle_safe_api_scoped FrameAccessor.withAccessor rfl rfl rfl⟩

/-- C8: when acquiring the shared GUI state fails (poisoned lock), the
`.lock().unwrap()` in `ImguiInputSystem::run` surfaces the failure — the
run produces the error and no result (so nothing is silently skipped and
no stale state is used). -/
theorem run_poisoned_lock_fails_fast {T : Type} (sys : ImguiInputSystem)
    (m : ImguiStateMutex)
    (input_events : EventChannel (InputEvent T)) (winit_events : EventChannel WinitEvent)
    (filtered_events : EventChannel (FilteredInputEvent T))
    (h : m.poisoned = true) :
    sys.run m input_events winit_events filtered_events = Except.error LockError.poisoned := by
  simp [ImguiInputSystem.run, ImguiStateMutex.lock, h]

/-- C8 witness: a concrete poisoned mutex. -/
theorem run_poisoned_lock_fails_fast_witness :
    (ImguiStateMutex.mk (exState false false) true).poisoned = true
    ∧ ImguiInputSystem.run exSystem ⟨exState false false, true⟩ exInputs exWinits exFiltered
        = Except.error LockError.poisoned :=
  ⟨rfl, run_poisoned_lock_fails_fast exSystem ⟨exState false false, true⟩
      exInputs exWinits exFiltered rfl⟩

/-- C9: a run of the input filter stage leaves the shared GUI state
unchanged — for every starting `ImguiState` and every pair of event
streams, the state left in the mutex (context and texture-handle list
alike) equals the state before the run. -/
theorem run_preserves_shared_state {T : Type} (sys : ImguiInputSystem) (st : ImguiState)
    (input_events : EventChannel (InputEvent T)) (winit_events : EventChannel WinitEvent)
    (filtered_events : EventChannel (FilteredInputEvent T)) :
    stateAfterRun sys ⟨st, false⟩ input_events winit_events filtered_events = Except.ok st := by
  simp [stateAfterRun, ImguiInputSystem.run, ImguiStateMutex.lock, EventChannel.read,
    Except.map]

/-- C10: `RenderImgui` defaults to the default render target; its config
flags default to `DOCKING_ENABLE` when the "docking" feature is enabled
and to the empty bitmask otherwise; `with_imgui_config` and `with_target`
each replace exactly their own field; and the plugin's two lifecycle
methods (`on_build`, `on_plan`) leave both fields unchanged. -/
theorem renderImgui_construction :
    (∀ docking : Bool, (RenderImgui.defaultPlugin docking).target = Target.defaultTarget)
    ∧ (RenderImgui.defaultPlugin true).config_flags = ConfigFlags.dockingEnable
    ∧ (RenderImgui.defaultPlugin false).config_flags = ConfigFlags.emptyFlags
    ∧ (∀ (p : RenderImgui) (flags : ConfigFlags),
        (p.with_imgui_config flags).config_flags = flags
        ∧ (p.with_imgui_config flags).target = p.target)
    ∧ (∀ (p : RenderImgui) (t : Target),
        (p.with_target t).target = t ∧ (p.with_target t).config_flags = p.config_flags)
    ∧ (∀ p : RenderImgui, p.on_build.1 = p ∧ p.on_plan.1 = p) := by
  refine ⟨?_, rfl, rfl, ?_, ?_, ?_⟩
  · intro docking
    cases docking <;> rfl
  · intro p flags
    exact ⟨rfl, rfl⟩
  · intro p t
    exact ⟨rfl, rfl⟩
  · intro p
    exact ⟨rfl, rfl⟩

end AmethystImgui
